import Mathlib

/-!
Verification of the exam-attempt and proctoring-event pipeline of Pariksha AI.

The definitions below are a shallow embedding of the TypeScript source:

* `penalty`, `applyPenalty`, `trustFold` embed the trust-score update of
  `POST /api/student/proctor-chunk` (server/src/server.ts, lines 1006-1008).
* `mapViolationTypeToLabel` embeds the label-normalisation helper
  (server.ts, lines 888-896); strings are modelled as `List Char`.
* `proctorChunk` embeds the `POST /api/student/proctor-chunk` handler
  (server.ts, lines 899-1038), with the external effects (database
  connectivity, frame extraction, ML detection, GridFS upload, and the
  possible failure point of each awaited save) supplied through an
  explicit environment.  The persistent state is projected onto the one
  `(testId, studentId)` pair named by the request: both handlers only ever
  read or write the `ExamAttempt` record of that pair, so the store is
  modelled as `Option ExamAttempt` plus the list of `ProctoringLog`s.
* `submitTest` embeds the `POST /api/student/submit-test` handler
  (server.ts, lines 1041-1229) the same way.
* `RegistryStep` is a small-step interleaving semantics for concurrent
  find-or-create touches of the attempt registry, whose backing store
  enforces the unique index on `(testId, studentId)` declared in the
  `ExamAttemptSchema` (`index({testId, studentId}, {unique: true})`).

JavaScript truthiness of optional numbers (`0` is falsy) is embedded by
`jsNum` / `jsOrInt`; `undefined`/`null` of optional values by `Option`.
Machine numbers are modelled as `Int` (all arithmetic in the handlers is
small-integer arithmetic, far from the 2^53 double-precision bound).
-/

namespace Pariksha

/-- Severity of a proctoring violation, `'low' | 'medium' | 'high'`. -/
inductive Severity
  | low
  | medium
  | high
  deriving DecidableEq, Repr

/-- The inline penalty of server.ts line 1006:
`severity === 'high' ? 10 : severity === 'medium' ? 5 : 2`. -/
def penalty : Severity → Int
  | .high => 10
  | .medium => 5
  | .low => 2

/-- One chunk-intake trust update, server.ts line 1008:
`attempt.trustScore = Math.max(0, attempt.trustScore - penalty)`. -/
def applyPenalty (score : Int) (s : Severity) : Int :=
  max 0 (score - penalty s)

/-- Folding the chunk-intake update over a list of arriving severities. -/
def trustFold (init : Int) (l : List Severity) : Int :=
  l.foldl applyPenalty init

theorem penalty_nonneg (s : Severity) : 0 ≤ penalty s := by
  cases s <;> decide

theorem penalty_sum_nonneg (l : List Severity) : 0 ≤ (l.map penalty).sum := by
  induction l with
  | nil => simp
  | cons s t ih =>
    simp only [List.map_cons, List.sum_cons]
    have := penalty_nonneg s
    omega

theorem trustFold_eq_max (init : Int) (h : 0 ≤ init) (l : List Severity) :
    trustFold init l = max 0 (init - (l.map penalty).sum) := by
  induction l generalizing init with
  | nil =>
    simp [trustFold]
    omega
  | cons s t ih =>
    have hstep : trustFold init (s :: t) = trustFold (applyPenalty init s) t := rfl
    rw [hstep, ih (applyPenalty init s) (le_max_left 0 _)]
    have hp := penalty_nonneg s
    have ht := penalty_sum_nonneg t
    simp only [applyPenalty, List.map_cons, List.sum_cons]
    omega

/-- The closed label set of `ProctoringLog.label`. -/
inductive PLabel
  | phoneDetected
  | multipleFaces
  | noPersonVisible
  | audioDetected
  | lookingAway
  deriving DecidableEq, Repr

/-- `type.toLowerCase()` on the ASCII detector strings. -/
def lowerStr (s : List Char) : List Char :=
  s.map Char.toLower

/-- `sub` occurs at the head of `s`. -/
def leadsWith : List Char → List Char → Bool
  | [], _ => true
  | _ :: _, [] => false
  | a :: as, b :: bs => a == b && leadsWith as bs

/-- `s.includes(sub)` : substring containment on character lists. -/
def containsSub : List Char → List Char → Bool
  | [], sub => sub.isEmpty
  | c :: rest, sub => leadsWith sub (c :: rest) || containsSub rest sub

/-- server.ts lines 888-896, `mapViolationTypeToLabel`: normalise a raw
detector string to the closed `ProctoringLog` label set. -/
def mapViolationTypeToLabel (t : List Char) : PLabel :=
  if containsSub (lowerStr t) "phone".toList then .phoneDetected
  else if containsSub (lowerStr t) "device".toList then .phoneDetected
  else if containsSub (lowerStr t) "multiple".toList
      && containsSub (lowerStr t) "face".toList then .multipleFaces
  else if containsSub (lowerStr t) "no face".toList
      || containsSub (lowerStr t) "no person".toList then .noPersonVisible
  else if containsSub (lowerStr t) "audio".toList then .audioDetected
  else .lookingAway

/-- The normalisation rules exactly as the spec words them: containing
"phone" or "device" maps to phone-detected; containing both "multiple"
and "face" maps to multiple-faces; absence-of-face phrasing maps to
no-person-visible; audio phrasing maps to audio-detected; every other
string maps to looking-away, checked in that order, case-insensitively. -/
def labelSpec (t : List Char) : PLabel :=
  if containsSub (lowerStr t) "phone".toList
      || containsSub (lowerStr t) "device".toList then .phoneDetected
  else if containsSub (lowerStr t) "multiple".toList
      && containsSub (lowerStr t) "face".toList then .multipleFaces
  else if containsSub (lowerStr t) "no face".toList
      || containsSub (lowerStr t) "no person".toList then .noPersonVisible
  else if containsSub (lowerStr t) "audio".toList then .audioDetected
  else .lookingAway

/-- `status ∈ {not-started, in-progress, submitted}`. -/
inductive AttemptStatus
  | notStarted
  | inProgress
  | submitted
  deriving DecidableEq, Repr

/-- One entry of `ExamAttempt.answers` (answer values are opaque to the
core except for objective comparison; they are modelled as `Int`). -/
structure ExamAnswer where
  questionId : Nat
  answer : Int
  isCorrect : Option Bool
  marksObtained : Option Int
  deriving DecidableEq, Repr

/-- The `ExamAttempt` document of the fixed `(testId, studentId)` pair.
`trustScore` is `Option Int`: `none` stands for a stored `null`/missing
value (the schema default 100 and every creation path in the handlers
make it `some` in practice, but the submit handler branches on it). -/
structure ExamAttempt where
  status : AttemptStatus
  startedAt : Option Int
  endedAt : Option Int
  duration : Option Int
  answers : List ExamAnswer
  totalScore : Int
  trustScore : Option Int
  totalViolations : Int
  questionsAttempted : Int
  deriving DecidableEq, Repr

/-- One `ProctoringLog` document (its `attemptId` is the fixed pair's
attempt and is left implicit). -/
structure ProctoringLog where
  timestamp : Int
  label : PLabel
  severity : Severity
  imageId : Option Nat
  deriving DecidableEq, Repr

/-- The persistent store projected onto one `(testId, studentId)` pair:
the attempt record for the pair, if any, and the proctoring ledger. -/
structure ServerState where
  attempt : Option ExamAttempt
  logs : List ProctoringLog
  deriving DecidableEq, Repr

/-- Error codes returned by the two handlers. -/
inductive ErrCode
  | databaseUnavailable
  | missingFields
  | testAlreadySubmitted
  deriving DecidableEq, Repr

/-- `v ? v : d` for an optional JS number (`undefined`, `null`, `0` falsy). -/
def jsNum (v : Option Int) (d : Int) : Int :=
  match v with
  | some x => if x = 0 then d else x
  | none => d

/-- JS truthiness of an optional number. -/
def jsTruthyNum : Option Int → Bool
  | some x => x != 0
  | none => false

/-- `a || b` on JS numbers (`0` falsy). -/
def jsOrInt (a b : Int) : Int :=
  if a = 0 then b else a

/-- The result shape of `processVideoChunkWithML`. -/
structure MLResult where
  hasViolation : Bool
  violationType : Option (List Char)
  severity : Option Severity
  deriving DecidableEq, Repr

/-- Raw outcome of the ML detector body: a result, or a thrown error. -/
inductive MLRun
  | ok (r : MLResult)
  | err
  deriving DecidableEq, Repr

/-- mlProctoring.ts lines 18-73, `processVideoChunkWithML`: any error in
the detector body is caught and reported as "no violation". -/
def processVideoChunkWithML : MLRun → MLResult
  | .ok r => r
  | .err => ⟨false, none, none⟩

/-- Raw outcome of frame extraction: a frame, or a thrown error. -/
inductive FrameRun
  | ok (frame : List Char)
  | err
  deriving DecidableEq, Repr

/-- mlProctoring.ts lines 81-127, `extractFrameFromVideo`: any failure
(ffmpeg missing, I/O error) is caught and the empty string returned. -/
def extractFrameFromVideo : FrameRun → List Char
  | .ok f => f
  | .err => []

/-- The awaited datastore writes of the chunk handler; each one, when it
throws, sends control to the handler's catch block with every earlier
write already persisted and every later write skipped. -/
inductive ChunkFailPoint
  | createSave
  | ledgerAppend
  | trustSave
  deriving DecidableEq, Repr

/-- Body of `POST /api/student/proctor-chunk`. -/
structure ChunkReq where
  studentId : Option Nat
  testId : Option Nat
  videoChunk : Option (List Char)
  timestamp : Option Int
  deriving DecidableEq, Repr

/-- External world of one chunk request: database connectivity, the two
ML utility outcomes, GridFS availability, the id a successful GridFS
upload would allocate, the clock, and which awaited write (if any) throws. -/
structure ChunkEnv where
  dbConnected : Bool
  frameRun : FrameRun
  mlRun : MLRun
  evidenceOk : Bool
  newImageId : Nat
  now : Int
  failAt : Option ChunkFailPoint
  deriving DecidableEq, Repr

/-- Response of the chunk handler. -/
structure ChunkResp where
  status : Nat
  error : Option ErrCode
  violationDetected : Bool
  violationType : Option (List Char)
  severity : Option Severity
  deriving DecidableEq, Repr

/-- server.ts lines 1028-1037: the catch block never fails the request. -/
def chunkCatchResp : ChunkResp :=
  ⟨200, none, false, none, none⟩

/-- server.ts lines 941-951: the attempt created on first contact. -/
def freshChunkAttempt (startedAt : Int) : ExamAttempt :=
  { status := .inProgress
    startedAt := some startedAt
    endedAt := none
    duration := none
    answers := []
    totalScore := 0
    trustScore := some 100
    totalViolations := 0
    questionsAttempted := 0 }

/-- server.ts lines 956-1019: the violation branch of the chunk handler,
after the attempt `a` is known to exist: best-effort GridFS upload
(failure only loses the image id), ledger append, then the trust-score
and violation-count update on the attempt.  No status check is made. -/
def violationSteps (env : ChunkEnv) (req : ChunkReq) (st : ServerState)
    (a : ExamAttempt) (frameImage vtype : List Char) (sev : Option Severity) :
    ChunkResp × ServerState :=
  let logTimestamp := jsNum req.timestamp env.now
  let imageId : Option Nat :=
    if frameImage.isEmpty then none
    else if env.evidenceOk then some env.newImageId else none
  let severity := sev.getD .medium
  if env.failAt = some .ledgerAppend then
    (chunkCatchResp, st)
  else
    let log : ProctoringLog :=
      ⟨logTimestamp, mapViolationTypeToLabel vtype, severity, imageId⟩
    let st1 : ServerState := { st with logs := st.logs ++ [log] }
    let updated : ExamAttempt := { a with
      totalViolations := a.totalViolations + 1
      trustScore := a.trustScore.map fun t => max 0 (t - penalty severity) }
    if env.failAt = some .trustSave then
      (chunkCatchResp, st1)
    else
      (⟨200, none, true, some vtype, some severity⟩, { st1 with attempt := some updated })

/-- server.ts lines 899-1038, `POST /api/student/proctor-chunk`. -/
def proctorChunk (env : ChunkEnv) (req : ChunkReq) (st : ServerState) :
    ChunkResp × ServerState :=
  if !env.dbConnected then
    (⟨503, some .databaseUnavailable, false, none, none⟩, st)
  else if req.studentId.isNone || req.testId.isNone || req.videoChunk.isNone then
    (⟨400, some .missingFields, false, none, none⟩, st)
  else
    let frameImage := extractFrameFromVideo env.frameRun
    let mlResult := processVideoChunkWithML env.mlRun
    match mlResult.hasViolation, mlResult.violationType with
    | true, some vtype =>
      if vtype.isEmpty then
        (⟨200, none, false, none, none⟩, st)
      else
        match st.attempt with
        | some a => violationSteps env req st a frameImage vtype mlResult.severity
        | none =>
          if env.failAt = some .createSave then
            (chunkCatchResp, st)
          else
            let fresh := freshChunkAttempt (jsNum req.timestamp env.now)
            violationSteps env req { st with attempt := some fresh } fresh
              frameImage vtype mlResult.severity
    | _, _ => (⟨200, none, false, none, none⟩, st)

/-- Question types relevant to grading. -/
inductive QType
  | mcq
  | subjective
  | coding
  deriving DecidableEq, Repr

/-- The fields of a `Question` document fetched for evaluation
(`{type: 1, correctAnswer: 1, marks: 1}`). -/
structure QuestionDoc where
  qid : Nat
  qtype : QType
  correctAnswer : Option Int
  marks : Option Int
  deriving DecidableEq, Repr

/-- The fields of the `Test` document used by the submit handler. -/
structure TestDoc where
  questionIds : List Nat
  startTime : Option Int
  endTime : Option Int
  deriving DecidableEq, Repr

/-- One element of `evaluationQuestions`, server.ts lines 1088-1121. -/
structure EvalQuestion where
  index : Nat
  questionId : Nat
  qtype : QType
  correctAnswer : Option Int
  marks : Option Int
  deriving DecidableEq, Repr

/-- `doc.marks || 1` (JS: `undefined` and `0` are falsy). -/
def jsMarksOr1 (m : Option Int) : Int :=
  match m with
  | some v => if v = 0 then 1 else v
  | none => 1

/-- server.ts lines 1096-1122: resolve the test's question list against
the question collection, keeping order, dropping unresolved ids, with
1-based indices; `correctAnswer` only for numeric-keyed mcq questions. -/
def buildEvaluationQuestions (test : Option TestDoc) (bank : List QuestionDoc) :
    List EvalQuestion :=
  match test with
  | none => []
  | some td =>
    td.questionIds.enum.filterMap fun p =>
      match bank.find? (fun d => d.qid == p.2) with
      | none => none
      | some doc => some
          { index := p.1 + 1
            questionId := p.2
            qtype := doc.qtype
            correctAnswer :=
              if doc.qtype == .mcq && doc.correctAnswer.isSome then doc.correctAnswer
              else none
            marks := some (jsMarksOr1 doc.marks) }

/-- `answers ? answers[q.index] : undefined` (answers is a JS object
keyed by 1-based question index; `null` and `undefined` both skip). -/
def lookupAnswer (ans : Option (List (Nat × Int))) (i : Nat) : Option Int :=
  match ans with
  | none => none
  | some l => l.lookup i

/-- Accumulator of the evaluation loop. -/
structure EvalOutcome where
  questionsAttempted : Int
  actualScore : Int
  examAnswers : List ExamAnswer
  deriving DecidableEq, Repr

/-- One iteration of the evaluation loop, server.ts lines 1124-1147. -/
def evalStep (ans : Option (List (Nat × Int))) (acc : EvalOutcome)
    (q : EvalQuestion) : EvalOutcome :=
  match lookupAnswer ans q.index with
  | none => acc
  | some given =>
    let mcqGraded : Bool := q.qtype == .mcq && q.correctAnswer.isSome
    let isCorrect : Bool := mcqGraded && some given == q.correctAnswer
    let marksAwarded : Int := if isCorrect then jsMarksOr1 q.marks else 0
    { questionsAttempted := acc.questionsAttempted + 1
      actualScore := acc.actualScore + marksAwarded
      examAnswers := acc.examAnswers ++
        [⟨q.questionId, given, some isCorrect, some marksAwarded⟩] }

/-- The evaluation loop over `evaluationQuestions`. -/
def evaluateAnswers (qs : List EvalQuestion) (ans : Option (List (Nat × Int))) :
    EvalOutcome :=
  qs.foldl (evalStep ans) ⟨0, 0, []⟩

/-- One entry of the submission payload's `violations` array. -/
structure VPayload where
  vtype : Option (List Char)
  timestamp : Option Int
  severity : Option Severity
  deriving DecidableEq, Repr

/-- `violations?.length`, `undefined` giving `0` through the `||` chain. -/
def payloadLen (v : Option (List VPayload)) : Int :=
  match v with
  | some l => l.length
  | none => 0

/-- Body of `POST /api/student/submit-test`. -/
structure SubmitReq where
  studentId : Option Nat
  testId : Option Nat
  answers : Option (List (Nat × Int))
  startTime : Option Int
  endTime : Option Int
  violations : Option (List VPayload)
  deriving DecidableEq, Repr

/-- External world of one submit request. -/
structure SubmitEnv where
  dbConnected : Bool
  test : Option TestDoc
  questionBank : List QuestionDoc
  now : Int
  deriving DecidableEq, Repr

/-- Response of the submit handler; `trustScore` carries the attempt's
(possibly null) stored trust score on success. -/
structure SubmitResp where
  status : Nat
  error : Option ErrCode
  actualScore : Option Int
  trustScore : Option (Option Int)
  violationCount : Option Int
  deriving DecidableEq, Repr

/-- `ExamAttempt.findOne({testId, studentId, status: 'submitted'})` is
non-empty, server.ts lines 1059-1063. -/
def hasSubmittedAttempt (st : ServerState) : Bool :=
  match st.attempt with
  | some a => a.status == .submitted
  | none => false

/-- server.ts lines 1150-1177: the attempt upsert.  A fresh attempt gets
`trustScore: 100` unconditionally; an existing attempt keeps its
trustScore unless that is null, in which case the
`max(0, 100 - 5 * violationCount)` fallback applies. -/
def submitUpsert (viols : Option (List VPayload)) (startTime endTime dur : Int)
    (outcome : EvalOutcome) : Option ExamAttempt → ExamAttempt
  | none =>
    { status := .submitted
      startedAt := some startTime
      endedAt := some endTime
      duration := some dur
      answers := outcome.examAnswers
      totalScore := outcome.actualScore
      trustScore := some 100
      totalViolations := payloadLen viols
      questionsAttempted := outcome.questionsAttempted }
  | some a =>
    -- the mutations of lines 1166-1171, then the trustScore null check of
    -- lines 1173-1176 (`a.trustScore` is untouched by those mutations)
    if a.trustScore.isNone then
      { a with
        status := .submitted
        endedAt := some endTime
        duration := some dur
        answers := outcome.examAnswers
        totalScore := outcome.actualScore
        questionsAttempted := outcome.questionsAttempted
        trustScore := some (max 0 (100 -
          jsOrInt (payloadLen viols) (jsOrInt a.totalViolations 0) * 5)) }
    else
      { a with
        status := .submitted
        endedAt := some endTime
        duration := some dur
        answers := outcome.examAnswers
        totalScore := outcome.actualScore
        questionsAttempted := outcome.questionsAttempted }

/-- server.ts lines 1180-1182: `if (!attempt.totalViolations)
attempt.totalViolations = violationCount`. -/
def finalizeViolations (viols : Option (List VPayload)) (a : ExamAttempt) : ExamAttempt :=
  if a.totalViolations = 0 then
    { a with totalViolations := jsOrInt (payloadLen viols) (jsOrInt a.totalViolations 0) }
  else a

/-- server.ts lines 1072-1213: the submit handler past its validation
gates (duration computation, grading, upsert, violation logging). -/
def submitBody (env : SubmitEnv) (req : SubmitReq) (st : ServerState) :
    SubmitResp × ServerState :=
  let startTime := req.startTime.getD 0
  let endTime := req.endTime.getD 0
  let dur := Int.fdiv (endTime - startTime) 1000
  let outcome := evaluateAnswers (buildEvaluationQuestions env.test env.questionBank)
    req.answers
  let attempt := submitUpsert req.violations startTime endTime dur outcome st.attempt
  let violationCount := jsOrInt (payloadLen req.violations)
    (jsOrInt attempt.totalViolations 0)
  let attempt2 := finalizeViolations req.violations attempt
  -- lines 1187-1204: append payload violations to the ledger
  let newLogs : List ProctoringLog :=
    match req.violations with
    | some vs => vs.map fun v =>
        ⟨jsNum v.timestamp env.now, mapViolationTypeToLabel (v.vtype.getD []),
         v.severity.getD .medium, none⟩
    | none => []
  (⟨200, none, some outcome.actualScore, some attempt2.trustScore,
    some violationCount⟩, ⟨some attempt2, st.logs ++ newLogs⟩)

/-- server.ts lines 1041-1229, `POST /api/student/submit-test`.  Note:
no access-window check is made, no ordering check between `startTime`
and `endTime`, and `duration` is `Math.floor((end - start) / 1000)`. -/
def submitTest (env : SubmitEnv) (req : SubmitReq) (st : ServerState) :
    SubmitResp × ServerState :=
  if !env.dbConnected then
    (⟨503, some .databaseUnavailable, none, none, none⟩, st)
  else if req.studentId.isNone || req.testId.isNone
      || !jsTruthyNum req.startTime || !jsTruthyNum req.endTime then
    (⟨400, some .missingFields, none, none, none⟩, st)
  else if hasSubmittedAttempt st then
    (⟨409, some .testAlreadySubmitted, none, none, none⟩, st)
  else
    submitBody env req st

theorem submitTest_success (env : SubmitEnv) (req : SubmitReq) (st : ServerState)
    (hdb : env.dbConnected = true)
    (hsid : req.studentId.isSome = true) (htid : req.testId.isSome = true)
    (hst : jsTruthyNum req.startTime = true) (het : jsTruthyNum req.endTime = true)
    (hnosub : hasSubmittedAttempt st = false) :
    submitTest env req st = submitBody env req st := by
  obtain ⟨s, hs⟩ := Option.isSome_iff_exists.mp hsid
  obtain ⟨t, ht⟩ := Option.isSome_iff_exists.mp htid
  unfold submitTest
  simp [hdb, hs, ht, hst, het, hnosub]

theorem finalizeViolations_trustScore (viols : Option (List VPayload))
    (a : ExamAttempt) : (finalizeViolations viols a).trustScore = a.trustScore := by
  unfold finalizeViolations; split <;> rfl

theorem finalizeViolations_duration (viols : Option (List VPayload))
    (a : ExamAttempt) : (finalizeViolations viols a).duration = a.duration := by
  unfold finalizeViolations; split <;> rfl

theorem submitUpsert_duration (viols : Option (List VPayload))
    (startTime endTime dur : Int) (outcome : EvalOutcome) (oa : Option ExamAttempt) :
    (submitUpsert viols startTime endTime dur outcome oa).duration = some dur := by
  cases oa with
  | none => rfl
  | some a =>
    unfold submitUpsert
    dsimp only
    split <;> rfl

/-- C1: starting from trustScore 100, folding the chunk-intake update
`trustScore := max(0, trustScore - penalty(severity))` with penalty
low = 2, medium = 5, high = 10 over any multiset of severities yields the
same final score in any order, equal to `max(0, 100 - sum of penalties)`. -/
theorem chunk_trust_update_order_independent (l l' : List Severity) (h : l.Perm l') :
    trustFold 100 l = trustFold 100 l' ∧
    trustFold 100 l = max 0 (100 - (l.map penalty).sum) := by
  have h1 := trustFold_eq_max 100 (by norm_num) l
  have h2 := trustFold_eq_max 100 (by norm_num) l'
  have hsum : (l.map penalty).sum = (l'.map penalty).sum := (h.map penalty).sum_eq
  exact ⟨by rw [h1, h2, hsum], h1⟩

theorem chunk_trust_update_order_independent_witness :
    trustFold 100 [Severity.high, .medium, .low] =
      trustFold 100 [Severity.low, .high, .medium] ∧
    trustFold 100 [Severity.high, .medium, .low] =
      max 0 (100 - ([Severity.high, .medium, .low].map penalty).sum) :=
  chunk_trust_update_order_independent _ _ (by decide)

/-- C8: the label normalisation is total, depends only on the
lower-cased input, and applies the spec's rules in the spec's order:
"phone"/"device" → phone-detected, "multiple"+"face" → multiple-faces,
absence-of-face phrasing → no-person-visible, audio phrasing →
audio-detected, everything else → looking-away. -/
theorem label_normalization_matches_spec (t u : List Char) :
    mapViolationTypeToLabel t = labelSpec t ∧
    (lowerStr t = lowerStr u → mapViolationTypeToLabel t = mapViolationTypeToLabel u) := by
  constructor
  · unfold mapViolationTypeToLabel labelSpec
    cases hp : containsSub (lowerStr t) "phone".toList <;>
      cases hd : containsSub (lowerStr t) "device".toList <;>
      simp [hp, hd]
  · intro h
    unfold mapViolationTypeToLabel
    rw [h]

theorem label_normalization_matches_spec_witness :
    mapViolationTypeToLabel "PHONE Detected".toList = labelSpec "PHONE Detected".toList ∧
    mapViolationTypeToLabel "PHONE Detected".toList =
      mapViolationTypeToLabel "phone detected".toList :=
  ⟨(label_normalization_matches_spec "PHONE Detected".toList "phone detected".toList).1,
   (label_normalization_matches_spec "PHONE Detected".toList "phone detected".toList).2
     (by decide)⟩

/-- C5: a submit-test call for a pair whose attempt is already
`submitted` is rejected with 409 `TEST_ALREADY_SUBMITTED` and the stored
state — in particular `totalScore` and `trustScore` — is unchanged. -/
theorem double_submit_rejected_with_conflict
    (env : SubmitEnv) (sid tid : Nat) (ans : Option (List (Nat × Int)))
    (stv etv : Int) (viols : Option (List VPayload))
    (a : ExamAttempt) (logs : List ProctoringLog)
    (hdb : env.dbConnected = true) (hstv : stv ≠ 0) (hetv : etv ≠ 0)
    (hsub : a.status = .submitted) :
    submitTest env ⟨some sid, some tid, ans, some stv, some etv, viols⟩ ⟨some a, logs⟩ =
      (⟨409, some .testAlreadySubmitted, none, none, none⟩, ⟨some a, logs⟩) := by
  have h1 : hasSubmittedAttempt ⟨some a, logs⟩ = true := by
    simp [hasSubmittedAttempt, hsub]
  unfold submitTest
  simp [hdb, jsTruthyNum, hstv, hetv, h1]

theorem double_submit_rejected_with_conflict_witness :
    submitTest ⟨true, none, [], 0⟩
        ⟨some 1, some 2, none, some 5, some 9, none⟩
        ⟨some ⟨.submitted, some 1, some 2, some 1, [], 7, some 90, 2, 3⟩, []⟩ =
      (⟨409, some .testAlreadySubmitted, none, none, none⟩,
       ⟨some ⟨.submitted, some 1, some 2, some 1, [], 7, some 90, 2, 3⟩, []⟩) :=
  double_submit_rejected_with_conflict _ _ _ _ _ _ _ _ _ rfl
    (by decide) (by decide) rfl

/-- C10: submit-test performs no ordering check between `startTime` and
`endTime`: whenever its field validation passes and no submitted attempt
exists, the call succeeds with 200 and stores
`duration = floor((endTime - startTime) / 1000)`, negative when
`endTime < startTime`. -/
theorem submit_no_ordering_check
    (env : SubmitEnv) (sid tid : Nat) (ans : Option (List (Nat × Int)))
    (stv etv : Int) (viols : Option (List VPayload))
    (oa : Option ExamAttempt) (logs : List ProctoringLog)
    (hdb : env.dbConnected = true) (hstv : stv ≠ 0) (hetv : etv ≠ 0)
    (hnosub : hasSubmittedAttempt ⟨oa, logs⟩ = false) :
    (submitTest env ⟨some sid, some tid, ans, some stv, some etv, viols⟩
        ⟨oa, logs⟩).1.status = 200 ∧
    ((submitTest env ⟨some sid, some tid, ans, some stv, some etv, viols⟩
        ⟨oa, logs⟩).2.attempt.map ExamAttempt.duration) =
      some (some (Int.fdiv (etv - stv) 1000)) := by
  rw [submitTest_success env ⟨some sid, some tid, ans, some stv, some etv, viols⟩
    ⟨oa, logs⟩ hdb rfl rfl (by simp [jsTruthyNum, hstv]) (by simp [jsTruthyNum, hetv]) hnosub]
  unfold submitBody
  refine ⟨rfl, ?_⟩
  simp [finalizeViolations_duration, submitUpsert_duration]

theorem submit_no_ordering_check_witness :
    ((submitTest ⟨true, none, [], 0⟩
        ⟨some 1, some 2, none, some 10000, some 3000, none⟩ ⟨none, []⟩).1.status = 200 ∧
    ((submitTest ⟨true, none, [], 0⟩
        ⟨some 1, some 2, none, some 10000, some 3000, none⟩
        ⟨none, []⟩).2.attempt.map ExamAttempt.duration) =
      some (some (Int.fdiv (3000 - 10000) 1000))) ∧
    Int.fdiv (3000 - 10000) 1000 = -7 :=
  ⟨submit_no_ordering_check _ _ _ _ _ _ _ _ _ rfl (by decide) (by decide) rfl,
   by decide⟩

/-- C2 as the code actually behaves: the chunk handler never checks the
attempt's status, so a violation-bearing chunk for an already-submitted
attempt still decrements `trustScore` and increments `totalViolations`;
only `status` itself is left at `submitted`. -/
theorem proctor_chunk_ignores_submitted_status
    (fr : FrameRun) (evOk : Bool) (imgId : Nat) (now : Int)
    (sid tid : Nat) (vc vt : List Char) (ts : Option Int) (sev : Option Severity)
    (a : ExamAttempt) (logs : List ProctoringLog)
    (hsub : a.status = .submitted) (hvt : vt ≠ []) :
    (proctorChunk ⟨true, fr, .ok ⟨true, some vt, sev⟩, evOk, imgId, now, none⟩
        ⟨some sid, some tid, some vc, ts⟩ ⟨some a, logs⟩).1.status = 200 ∧
    (proctorChunk ⟨true, fr, .ok ⟨true, some vt, sev⟩, evOk, imgId, now, none⟩
        ⟨some sid, some tid, some vc, ts⟩ ⟨some a, logs⟩).2.attempt =
      some { a with
        totalViolations := a.totalViolations + 1
        trustScore := a.trustScore.map fun t => max 0 (t - penalty (sev.getD .medium)) } ∧
    ((proctorChunk ⟨true, fr, .ok ⟨true, some vt, sev⟩, evOk, imgId, now, none⟩
        ⟨some sid, some tid, some vc, ts⟩ ⟨some a, logs⟩).2.attempt.map
        ExamAttempt.status) = some .submitted := by
  unfold proctorChunk violationSteps
  simp [processVideoChunkWithML, hvt, hsub]

theorem proctor_chunk_ignores_submitted_status_witness :
    (proctorChunk ⟨true, .err, .ok ⟨true, some "Phone detected".toList, some .high⟩,
        true, 5, 777, none⟩
        ⟨some 1, some 2, some "x".toList, some 50⟩
        ⟨some ⟨.submitted, some 1, some 2, some 1, [], 7, some 90, 2, 3⟩, []⟩).1.status = 200 ∧
    (proctorChunk ⟨true, .err, .ok ⟨true, some "Phone detected".toList, some .high⟩,
        true, 5, 777, none⟩
        ⟨some 1, some 2, some "x".toList, some 50⟩
        ⟨some ⟨.submitted, some 1, some 2, some 1, [], 7, some 90, 2, 3⟩, []⟩).2.attempt =
      some { (⟨.submitted, some 1, some 2, some 1, [], 7, some 90, 2, 3⟩ : ExamAttempt) with
        totalViolations := 2 + 1
        trustScore := (some 90).map fun t =>
          max 0 (t - penalty ((some Severity.high).getD .medium)) } ∧
    ((proctorChunk ⟨true, .err, .ok ⟨true, some "Phone detected".toList, some .high⟩,
        true, 5, 777, none⟩
        ⟨some 1, some 2, some "x".toList, some 50⟩
        ⟨some ⟨.submitted, some 1, some 2, some 1, [], 7, some 90, 2, 3⟩, []⟩).2.attempt.map
        ExamAttempt.status) = some .submitted :=
  proctor_chunk_ignores_submitted_status _ _ _ _ _ _ _ _ _ _ _ _ rfl (by decide)

/-- C2 as frozen is false: at this concrete input the attempt is already
submitted, yet the proctor-chunk ingestion changes its trustScore (90 to
80) and totalViolations (2 to 3). -/
theorem proctor_chunk_mutates_submitted_attempt_counterexample :
    ((proctorChunk ⟨true, .err, .ok ⟨true, some "Phone detected".toList, some .high⟩,
        true, 5, 777, none⟩
        ⟨some 1, some 2, some "x".toList, some 50⟩
        ⟨some ⟨.submitted, some 1, some 2, some 1, [], 7, some 90, 2, 3⟩, []⟩).2.attempt.map
        ExamAttempt.trustScore) = some (some 80) ∧
    ((proctorChunk ⟨true, .err, .ok ⟨true, some "Phone detected".toList, some .high⟩,
        true, 5, 777, none⟩
        ⟨some 1, some 2, some "x".toList, some 50⟩
        ⟨some ⟨.submitted, some 1, some 2, some 1, [], 7, some 90, 2, 3⟩, []⟩).2.attempt.map
        ExamAttempt.trustScore) ≠ some (some 90) ∧
    ((proctorChunk ⟨true, .err, .ok ⟨true, some "Phone detected".toList, some .high⟩,
        true, 5, 777, none⟩
        ⟨some 1, some 2, some "x".toList, some 50⟩
        ⟨some ⟨.submitted, some 1, some 2, some 1, [], 7, some 90, 2, 3⟩, []⟩).2.attempt.map
        ExamAttempt.totalViolations) = some 3 := by
  decide

theorem submitUpsert_trustScore_fresh (viols : Option (List VPayload))
    (startTime endTime dur : Int) (outcome : EvalOutcome) :
    (submitUpsert viols startTime endTime dur outcome none).trustScore = some 100 := rfl

theorem submitUpsert_trustScore_kept (viols : Option (List VPayload))
    (startTime endTime dur : Int) (outcome : EvalOutcome) (a : ExamAttempt) (t : Int)
    (h : a.trustScore = some t) :
    (submitUpsert viols startTime endTime dur outcome (some a)).trustScore = some t := by
  unfold submitUpsert
  dsimp only
  simp [h]

theorem submitUpsert_trustScore_null (viols : Option (List VPayload))
    (startTime endTime dur : Int) (outcome : EvalOutcome) (a : ExamAttempt)
    (h : a.trustScore = none) :
    (submitUpsert viols startTime endTime dur outcome (some a)).trustScore =
      some (max 0 (100 - jsOrInt (payloadLen viols) (jsOrInt a.totalViolations 0) * 5)) := by
  unfold submitUpsert
  dsimp only
  simp [h]

/-- C3 as the code actually behaves: the student endpoints do not
consult the test's access window.  The submit handler's entire result is
invariant under arbitrary changes of the test's `startTime`/`endTime`
(it reads only the question list); the chunk handler's inputs contain no
test document at all.  The window is enforced only by the test-fetch
endpoint. -/
theorem submit_ignores_access_window
    (env : SubmitEnv) (td : TestDoc) (s1 e1 s2 e2 : Option Int)
    (req : SubmitReq) (st : ServerState) :
    submitTest { env with test := some { td with startTime := s1, endTime := e1 } } req st =
    submitTest { env with test := some { td with startTime := s2, endTime := e2 } } req st :=
  rfl

/-- C3 as frozen is false: the test is time-gated with window
[1000, 2000), the submitted session times 5000-6000 lie entirely outside
it, yet submit-test answers HTTP 200 and mutates the attempt store. -/
theorem submit_outside_window_accepted_counterexample :
    (submitTest ⟨true, some ⟨[], some 1000, some 2000⟩, [], 0⟩
        ⟨some 1, some 2, none, some 5000, some 6000, none⟩ ⟨none, []⟩).1.status = 200 ∧
    (submitTest ⟨true, some ⟨[], some 1000, some 2000⟩, [], 0⟩
        ⟨some 1, some 2, none, some 5000, some 6000, none⟩ ⟨none, []⟩).2.attempt ≠ none := by
  decide

/-- C4 as the code actually behaves: a chunk-driven trustScore on an
existing attempt is preserved by submission; but when no attempt exists
at all, the freshly created attempt stores (and the response returns)
trustScore 100 regardless of the violations in the payload — the
`max(0, 100 - 5 * count)` fallback applies only to an existing attempt
whose stored trustScore is null. -/
theorem submit_trust_score_rule
    (env : SubmitEnv) (sid tid : Nat) (ans : Option (List (Nat × Int)))
    (stv etv : Int) (viols : Option (List VPayload))
    (oa : Option ExamAttempt) (logs : List ProctoringLog)
    (hdb : env.dbConnected = true) (hstv : stv ≠ 0) (hetv : etv ≠ 0)
    (hnosub : hasSubmittedAttempt ⟨oa, logs⟩ = false) :
    (oa = none →
      ((submitTest env ⟨some sid, some tid, ans, some stv, some etv, viols⟩
          ⟨oa, logs⟩).2.attempt.map ExamAttempt.trustScore = some (some 100) ∧
       (submitTest env ⟨some sid, some tid, ans, some stv, some etv, viols⟩
          ⟨oa, logs⟩).1.trustScore = some (some 100))) ∧
    (∀ a t, oa = some a → a.trustScore = some t →
      ((submitTest env ⟨some sid, some tid, ans, some stv, some etv, viols⟩
          ⟨oa, logs⟩).2.attempt.map ExamAttempt.trustScore = some (some t) ∧
       (submitTest env ⟨some sid, some tid, ans, some stv, some etv, viols⟩
          ⟨oa, logs⟩).1.trustScore = some (some t))) ∧
    (∀ a, oa = some a → a.trustScore = none →
      ((submitTest env ⟨some sid, some tid, ans, some stv, some etv, viols⟩
          ⟨oa, logs⟩).2.attempt.map ExamAttempt.trustScore =
        some (some (max 0 (100 - jsOrInt (payloadLen viols)
          (jsOrInt a.totalViolations 0) * 5))) ∧
       (submitTest env ⟨some sid, some tid, ans, some stv, some etv, viols⟩
          ⟨oa, logs⟩).1.trustScore =
        some (some (max 0 (100 - jsOrInt (payloadLen viols)
          (jsOrInt a.totalViolations 0) * 5))))) := by
  rw [submitTest_success env ⟨some sid, some tid, ans, some stv, some etv, viols⟩
    ⟨oa, logs⟩ hdb rfl rfl (by simp [jsTruthyNum, hstv]) (by simp [jsTruthyNum, hetv]) hnosub]
  unfold submitBody
  refine ⟨?_, ?_, ?_⟩
  · intro h
    subst h
    simp [finalizeViolations_trustScore, submitUpsert_trustScore_fresh]
  · intro a t ha ht
    subst ha
    simp [finalizeViolations_trustScore, submitUpsert_trustScore_kept _ _ _ _ _ _ _ ht]
  · intro a ha ht
    subst ha
    simp [finalizeViolations_trustScore, submitUpsert_trustScore_null _ _ _ _ _ _ ht]

theorem submit_trust_score_rule_witness :
    ((none : Option ExamAttempt) = none →
      ((submitTest ⟨true, none, [], 0⟩
          ⟨some 1, some 2, none, some 5, some 9, none⟩
          ⟨none, []⟩).2.attempt.map ExamAttempt.trustScore = some (some 100) ∧
       (submitTest ⟨true, none, [], 0⟩
          ⟨some 1, some 2, none, some 5, some 9, none⟩
          ⟨none, []⟩).1.trustScore = some (some 100))) ∧
    (∀ a t, (none : Option ExamAttempt) = some a → a.trustScore = some t →
      ((submitTest ⟨true, none, [], 0⟩
          ⟨some 1, some 2, none, some 5, some 9, none⟩
          ⟨none, []⟩).2.attempt.map ExamAttempt.trustScore = some (some t) ∧
       (submitTest ⟨true, none, [], 0⟩
          ⟨some 1, some 2, none, some 5, some 9, none⟩
          ⟨none, []⟩).1.trustScore = some (some t))) ∧
    (∀ a, (none : Option ExamAttempt) = some a → a.trustScore = none →
      ((submitTest ⟨true, none, [], 0⟩
          ⟨some 1, some 2, none, some 5, some 9, none⟩
          ⟨none, []⟩).2.attempt.map ExamAttempt.trustScore =
        some (some (max 0 (100 - jsOrInt (payloadLen none)
          (jsOrInt a.totalViolations 0) * 5))) ∧
       (submitTest ⟨true, none, [], 0⟩
          ⟨some 1, some 2, none, some 5, some 9, none⟩
          ⟨none, []⟩).1.trustScore =
        some (some (max 0 (100 - jsOrInt (payloadLen none)
          (jsOrInt a.totalViolations 0) * 5))))) :=
  submit_trust_score_rule _ _ _ _ _ _ _ _ _ rfl (by decide) (by decide) rfl

/-- C4 as frozen is false: for a pair with no prior attempt and three
violations in the payload, the stored and returned trustScore is 100,
not max(0, 100 - 5 * 3) = 85. -/
theorem submit_fresh_trust_score_counterexample :
    (submitTest ⟨true, none, [], 0⟩
        ⟨some 1, some 2, none, some 5, some 9,
          some [⟨none, none, none⟩, ⟨none, none, none⟩, ⟨none, none, none⟩]⟩
        ⟨none, []⟩).1.trustScore = some (some 100) ∧
    ((submitTest ⟨true, none, [], 0⟩
        ⟨some 1, some 2, none, some 5, some 9,
          some [⟨none, none, none⟩, ⟨none, none, none⟩, ⟨none, none, none⟩]⟩
        ⟨none, []⟩).2.attempt.map ExamAttempt.trustScore) = some (some 100) ∧
    (100 : Int) ≠ max 0 (100 - 5 * 3) := by
  decide

theorem violationSteps_status (env : ChunkEnv) (req : ChunkReq) (st : ServerState)
    (a : ExamAttempt) (f v : List Char) (s : Option Severity) :
    (violationSteps env req st a f v s).1.status = 200 := by
  unfold violationSteps
  dsimp only
  split
  · rfl
  · split <;> rfl

theorem violationSteps_success (env : ChunkEnv) (req : ChunkReq) (st : ServerState)
    (a : ExamAttempt) (f v : List Char) (s : Option Severity)
    (h : env.failAt = none) :
    (violationSteps env req st a f v s).1 =
      ⟨200, none, true, some v, some (s.getD .medium)⟩ := by
  unfold violationSteps
  simp [h]

/-- C6 as the code actually behaves: once its field validation passes,
the chunk handler always answers HTTP 200; a detector failure (absorbed
inside `processVideoChunkWithML`) yields `violationDetected: false` and
no state change; but an evidence-store (GridFS) failure alone is
absorbed without forcing `false` — the response still reports the
detected violation with `violationDetected: true`. -/
theorem chunk_intake_fail_open :
    (∀ (env : ChunkEnv) (req : ChunkReq) (st : ServerState),
      env.dbConnected = true → req.studentId.isSome = true →
      req.testId.isSome = true → req.videoChunk.isSome = true →
      (proctorChunk env req st).1.status = 200) ∧
    (∀ (env : ChunkEnv) (req : ChunkReq) (st : ServerState),
      env.dbConnected = true → req.studentId.isSome = true →
      req.testId.isSome = true → req.videoChunk.isSome = true →
      env.mlRun = .err →
      proctorChunk env req st = (⟨200, none, false, none, none⟩, st)) ∧
    (∀ (fr : FrameRun) (imgId : Nat) (now : Int) (sid tid : Nat) (vc vt : List Char)
        (ts : Option Int) (sev : Option Severity) (st : ServerState),
      vt ≠ [] →
      (proctorChunk ⟨true, fr, .ok ⟨true, some vt, sev⟩, false, imgId, now, none⟩
          ⟨some sid, some tid, some vc, ts⟩ st).1.status = 200 ∧
      (proctorChunk ⟨true, fr, .ok ⟨true, some vt, sev⟩, false, imgId, now, none⟩
          ⟨some sid, some tid, some vc, ts⟩ st).1.violationDetected = true) := by
  refine ⟨?_, ?_, ?_⟩
  · intro env req st hdb hsid htid hvc
    obtain ⟨s1, hs1⟩ := Option.isSome_iff_exists.mp hsid
    obtain ⟨t1, ht1⟩ := Option.isSome_iff_exists.mp htid
    obtain ⟨v1, hv1⟩ := Option.isSome_iff_exists.mp hvc
    unfold proctorChunk
    simp only [hdb, hs1, ht1, hv1, Bool.not_true, Bool.false_eq_true, if_false,
      Option.isNone_none, Option.isNone_some, Bool.or_self, Bool.or_false,
      Bool.false_or]
    repeat' split
    all_goals simp [violationSteps_status, chunkCatchResp]
  · intro env req st hdb hsid htid hvc hml
    obtain ⟨s1, hs1⟩ := Option.isSome_iff_exists.mp hsid
    obtain ⟨t1, ht1⟩ := Option.isSome_iff_exists.mp htid
    obtain ⟨v1, hv1⟩ := Option.isSome_iff_exists.mp hvc
    unfold proctorChunk
    simp [hdb, hs1, ht1, hv1, hml, processVideoChunkWithML]
  · intro fr imgId now sid tid vc vt ts sev st hvt
    rcases st with ⟨oa, logs⟩
    cases oa with
    | none =>
      unfold proctorChunk
      simp [hvt, violationSteps_success, processVideoChunkWithML]
    | some a =>
      unfold proctorChunk
      simp [hvt, violationSteps_success, processVideoChunkWithML]

theorem chunk_intake_fail_open_witness :
    (proctorChunk ⟨true, .err, .err, true, 0, 0, none⟩
        ⟨some 1, some 2, some "x".toList, none⟩ ⟨none, []⟩).1.status = 200 ∧
    proctorChunk ⟨true, .err, .err, true, 0, 0, none⟩
        ⟨some 1, some 2, some "x".toList, none⟩ ⟨none, []⟩ =
      (⟨200, none, false, none, none⟩, ⟨none, []⟩) ∧
    ((proctorChunk ⟨true, .ok "f".toList,
        .ok ⟨true, some "Phone detected".toList, some .high⟩, false, 5, 7, none⟩
        ⟨some 1, some 2, some "x".toList, none⟩ ⟨none, []⟩).1.status = 200 ∧
     (proctorChunk ⟨true, .ok "f".toList,
        .ok ⟨true, some "Phone detected".toList, some .high⟩, false, 5, 7, none⟩
        ⟨some 1, some 2, some "x".toList, none⟩ ⟨none, []⟩).1.violationDetected = true) :=
  ⟨chunk_intake_fail_open.1 _ _ _ rfl rfl rfl rfl,
   chunk_intake_fail_open.2.1 _ _ _ rfl rfl rfl rfl rfl,
   chunk_intake_fail_open.2.2 _ _ _ _ _ _ _ _ _ _ (by decide)⟩

/-- C6 as frozen is false: at this concrete input the GridFS evidence
write fails while the detector reports a violation; the handler still
answers 200, but with `violationDetected: true`, not `false`. -/
theorem evidence_failure_reports_violation_counterexample :
    (proctorChunk ⟨true, .ok "f".toList,
        .ok ⟨true, some "Phone detected".toList, some .high⟩, false, 5, 7, none⟩
        ⟨some 1, some 2, some "x".toList, none⟩ ⟨none, []⟩).1.status = 200 ∧
    (proctorChunk ⟨true, .ok "f".toList,
        .ok ⟨true, some "Phone detected".toList, some .high⟩, false, 5, 7, none⟩
        ⟨some 1, some 2, some "x".toList, none⟩ ⟨none, []⟩).1.violationDetected ≠ false := by
  decide

/-- The evaluation questions that carry an answer in the submission. -/
def answeredQs (qs : List EvalQuestion) (ans : Option (List (Nat × Int))) :
    List EvalQuestion :=
  qs.filter fun q => (lookupAnswer ans q.index).isSome

/-- Whether the evaluation loop marks `q` correct: answered, objective
type with a numeric key, and the submitted value equals the key. -/
def isCorrectOf (ans : Option (List (Nat × Int))) (q : EvalQuestion) : Bool :=
  match lookupAnswer ans q.index with
  | some g => (q.qtype == .mcq && q.correctAnswer.isSome) && some g == q.correctAnswer
  | none => false

/-- The marks the evaluation loop awards for `q`. -/
def awardOf (ans : Option (List (Nat × Int))) (q : EvalQuestion) : Int :=
  if isCorrectOf ans q then jsMarksOr1 q.marks else 0

/-- The answer record the evaluation loop pushes for an answered `q`. -/
def recordOf (ans : Option (List (Nat × Int))) (q : EvalQuestion) : ExamAnswer :=
  ⟨q.questionId, (lookupAnswer ans q.index).getD 0, some (isCorrectOf ans q),
   some (awardOf ans q)⟩

theorem evaluateAnswers_foldl (ans : Option (List (Nat × Int)))
    (qs : List EvalQuestion) (acc : EvalOutcome) :
    qs.foldl (evalStep ans) acc =
      ⟨acc.questionsAttempted + (answeredQs qs ans).length,
       acc.actualScore + ((answeredQs qs ans).map (awardOf ans)).sum,
       acc.examAnswers ++ (answeredQs qs ans).map (recordOf ans)⟩ := by
  induction qs generalizing acc with
  | nil =>
    rcases acc with ⟨qa, sc, ea⟩
    simp [answeredQs]
  | cons q rest ih =>
    cases hlk : lookupAnswer ans q.index with
    | none =>
      simp only [List.foldl_cons, evalStep, hlk]
      rw [ih]
      simp [answeredQs, hlk]
    | some g =>
      simp only [List.foldl_cons, evalStep, hlk]
      rw [ih]
      simp only [answeredQs, List.filter_cons, hlk, Option.isSome_some, if_true]
      simp [awardOf, isCorrectOf, recordOf, hlk, add_assoc]
      omega

/-- C7 as the code actually behaves: each answered objective (mcq)
question with a numeric key is awarded its full marks weight exactly
when the submitted answer equals the key and zero otherwise;
`actualScore` is the sum of the awarded marks over the answered
questions; and each answered free-form/code question is counted as
attempted but recorded with `isCorrect = false` and `marksObtained = 0`
(a concrete boolean false, not null). -/
theorem grading_rule (qs : List EvalQuestion) (ans : Option (List (Nat × Int))) :
    (evaluateAnswers qs ans).questionsAttempted = (answeredQs qs ans).length ∧
    (evaluateAnswers qs ans).actualScore =
      ((answeredQs qs ans).map (awardOf ans)).sum ∧
    (evaluateAnswers qs ans).examAnswers = (answeredQs qs ans).map (recordOf ans) ∧
    (∀ q, q ∈ qs → q.qtype ≠ .mcq →
      isCorrectOf ans q = false ∧ awardOf ans q = 0 ∧
      recordOf ans q =
        ⟨q.questionId, (lookupAnswer ans q.index).getD 0, some false, some 0⟩) ∧
    (∀ q g ca, q ∈ qs → lookupAnswer ans q.index = some g →
      q.qtype = .mcq → q.correctAnswer = some ca →
      isCorrectOf ans q = (g == ca) ∧
      awardOf ans q = (if g = ca then jsMarksOr1 q.marks else 0)) := by
  have h := evaluateAnswers_foldl ans qs ⟨0, 0, []⟩
  refine ⟨?_, ?_, ?_, ?_, ?_⟩
  · unfold evaluateAnswers
    rw [h]
    simp
  · unfold evaluateAnswers
    rw [h]
    simp
  · unfold evaluateAnswers
    rw [h]
    simp
  · intro q _ hmc
    have hb : (q.qtype == QType.mcq) = false := by
      simp [hmc]
    cases hlk : lookupAnswer ans q.index with
    | none =>
      simp [isCorrectOf, awardOf, recordOf, hlk, hb]
    | some g =>
      simp [isCorrectOf, awardOf, recordOf, hlk, hb]
  · intro q g ca _ hlk hmcq hca
    have h1 : isCorrectOf ans q = (g == ca) := by
      simp [isCorrectOf, hlk, hmcq, hca]
    refine ⟨h1, ?_⟩
    rw [awardOf, h1]
    by_cases hg : g = ca <;> simp [hg]

theorem grading_rule_witness :
    (evaluateAnswers [⟨1, 10, QType.mcq, some 2, some 3⟩,
        ⟨2, 11, QType.subjective, none, some 2⟩] (some [(1, 2), (2, 9)])).questionsAttempted =
      (answeredQs [⟨1, 10, QType.mcq, some 2, some 3⟩,
        ⟨2, 11, QType.subjective, none, some 2⟩] (some [(1, 2), (2, 9)])).length ∧
    (isCorrectOf (some [(1, 2), (2, 9)]) ⟨2, 11, QType.subjective, none, some 2⟩ = false ∧
     awardOf (some [(1, 2), (2, 9)]) ⟨2, 11, QType.subjective, none, some 2⟩ = 0 ∧
     recordOf (some [(1, 2), (2, 9)]) ⟨2, 11, QType.subjective, none, some 2⟩ =
       ⟨11, (lookupAnswer (some [(1, 2), (2, 9)]) 2).getD 0, some false, some 0⟩) ∧
    (isCorrectOf (some [(1, 2), (2, 9)]) ⟨1, 10, QType.mcq, some 2, some 3⟩ =
       ((2 : Int) == 2) ∧
     awardOf (some [(1, 2), (2, 9)]) ⟨1, 10, QType.mcq, some 2, some 3⟩ =
       (if (2 : Int) = 2 then jsMarksOr1 (some 3) else 0)) :=
  ⟨(grading_rule [⟨1, 10, QType.mcq, some 2, some 3⟩,
      ⟨2, 11, QType.subjective, none, some 2⟩] (some [(1, 2), (2, 9)])).1,
   (grading_rule [⟨1, 10, QType.mcq, some 2, some 3⟩,
      ⟨2, 11, QType.subjective, none, some 2⟩] (some [(1, 2), (2, 9)])).2.2.2.1
     ⟨2, 11, QType.subjective, none, some 2⟩ (by decide) (by decide),
   (grading_rule [⟨1, 10, QType.mcq, some 2, some 3⟩,
      ⟨2, 11, QType.subjective, none, some 2⟩] (some [(1, 2), (2, 9)])).2.2.2.2
     ⟨1, 10, QType.mcq, some 2, some 3⟩ 2 2 (by decide) (by decide) rfl rfl⟩

/-- C7 as frozen is false: an answered free-form (subjective) question
is recorded with `isCorrect = some false`, a concrete boolean, not the
null (`none`) the claim states. -/
theorem free_form_recorded_false_counterexample :
    (evaluateAnswers [⟨1, 7, QType.subjective, none, some 2⟩]
        (some [(1, 3)])).examAnswers = [⟨7, 3, some false, some 0⟩] ∧
    (some false : Option Bool) ≠ none := by
  decide

/-- Phases of one find-or-create touch of the attempt registry
(server.ts lines 939-954: `findOne` then, if absent, `new ExamAttempt`
+ `save`; server.ts lines 1150-1184 behave the same way). -/
inductive TouchPhase
  | idle
  | found
  | notFound
  | doneUpdated
  | doneCreated
  | doneConflict
  deriving DecidableEq, Repr

/-- Interleaved state of `n` concurrent touches of one
`(testId, studentId)` pair: the list of stored attempt records for that
pair (tagged by the request that created each) and every request's
phase.  The list may in principle hold duplicates; the theorems show the
unique index keeps it at one. -/
structure RegistryState (n : Nat) where
  stored : List (Fin n)
  phase : Fin n → TouchPhase

/-- One atomic step of one request: `findOne` reads the store; an
insert obeys the unique index of `ExamAttemptSchema`
(`index({testId, studentId}, {unique: true})`), so inserting when a
record already exists fails with a conflict; a request whose `findOne`
hit completes by updating the existing record in place. -/
inductive RegistryStep {n : Nat} : RegistryState n → RegistryState n → Prop
  | findHit {s : RegistryState n} (i : Fin n)
      (hp : s.phase i = .idle) (hs : s.stored ≠ []) :
      RegistryStep s ⟨s.stored, Function.update s.phase i .found⟩
  | findMiss {s : RegistryState n} (i : Fin n)
      (hp : s.phase i = .idle) (hs : s.stored = []) :
      RegistryStep s ⟨s.stored, Function.update s.phase i .notFound⟩
  | insertOk {s : RegistryState n} (i : Fin n)
      (hp : s.phase i = .notFound) (hs : s.stored = []) :
      RegistryStep s ⟨[i], Function.update s.phase i .doneCreated⟩
  | insertConflict {s : RegistryState n} (i : Fin n)
      (hp : s.phase i = .notFound) (hs : s.stored ≠ []) :
      RegistryStep s ⟨s.stored, Function.update s.phase i .doneConflict⟩
  | updateExisting {s : RegistryState n} (i : Fin n)
      (hp : s.phase i = .found) :
      RegistryStep s ⟨s.stored, Function.update s.phase i .doneUpdated⟩

/-- No attempt stored yet, no request started. -/
def registryInit (n : Nat) : RegistryState n :=
  ⟨[], fun _ => .idle⟩

/-- States reachable by interleaving the `n` touches in any order. -/
def RegistryReachable {n : Nat} (s : RegistryState n) : Prop :=
  Relation.ReflTransGen RegistryStep (registryInit n) s

/-- The inductive invariant: at most one record; the stored records are
exactly the requests that completed by creating; any request that saw
or raced a record implies the store is non-empty. -/
def RegistryInv {n : Nat} (s : RegistryState n) : Prop :=
  s.stored.length ≤ 1 ∧
  (∀ i, s.phase i = .doneCreated ↔ i ∈ s.stored) ∧
  (∀ i, s.phase i = .found ∨ s.phase i = .doneUpdated ∨ s.phase i = .doneConflict →
    s.stored ≠ [])

theorem registry_inv_init (n : Nat) : RegistryInv (registryInit n) := by
  refine ⟨by simp [registryInit], ?_, ?_⟩
  · intro i
    simp [registryInit]
  · intro i h
    rcases h with h | h | h <;> simp [registryInit] at h

theorem registry_inv_step {n : Nat} {s s' : RegistryState n}
    (hinv : RegistryInv s) (hstep : RegistryStep s s') : RegistryInv s' := by
  obtain ⟨h1, h2, h3⟩ := hinv
  cases hstep with
  | findHit i hp hs =>
    refine ⟨h1, ?_, fun j _ => hs⟩
    intro j
    dsimp only
    by_cases hj : j = i
    · subst hj
      rw [Function.update_same]
      constructor
      · intro h
        exact absurd h (by decide)
      · intro hmem
        have hc := (h2 j).mpr hmem
        rw [hp] at hc
        exact absurd hc (by decide)
    · rw [Function.update_noteq hj]
      exact h2 j
  | findMiss i hp hs =>
    refine ⟨h1, ?_, ?_⟩
    · intro j
      dsimp only
      by_cases hj : j = i
      · subst hj
        rw [Function.update_same]
        constructor
        · intro h
          exact absurd h (by decide)
        · intro hmem
          have hc := (h2 j).mpr hmem
          rw [hp] at hc
          exact absurd hc (by decide)
      · rw [Function.update_noteq hj]
        exact h2 j
    · intro j hj'
      dsimp only at hj'
      by_cases hj : j = i
      · subst hj
        rw [Function.update_same] at hj'
        rcases hj' with h | h | h <;> exact absurd h (by decide)
      · rw [Function.update_noteq hj] at hj'
        exact absurd hs (h3 j hj')
  | insertOk i hp hs =>
    refine ⟨by simp, ?_, by simp⟩
    intro j
    dsimp only
    by_cases hj : j = i
    · subst hj
      rw [Function.update_same]
      simp
    · rw [Function.update_noteq hj]
      have hnot : j ∉ s.stored := by
        rw [hs]
        simp
      constructor
      · intro h
        exact absurd hnot (by simp [(h2 j).mp h])
      · intro hmem
        simp at hmem
        exact absurd hmem hj
  | insertConflict i hp hs =>
    refine ⟨h1, ?_, fun j _ => hs⟩
    intro j
    dsimp only
    by_cases hj : j = i
    · subst hj
      rw [Function.update_same]
      constructor
      · intro h
        exact absurd h (by decide)
      · intro hmem
        have hc := (h2 j).mpr hmem
        rw [hp] at hc
        exact absurd hc (by decide)
    · rw [Function.update_noteq hj]
      exact h2 j
  | updateExisting i hp =>
    refine ⟨h1, ?_, fun j _ => h3 i (Or.inl hp)⟩
    intro j
    dsimp only
    by_cases hj : j = i
    · subst hj
      rw [Function.update_same]
      constructor
      · intro h
        exact absurd h (by decide)
      · intro hmem
        have hc := (h2 j).mpr hmem
        rw [hp] at hc
        exact absurd hc (by decide)
    · rw [Function.update_noteq hj]
      exact h2 j

/-- C9: under any interleaving of find-or-create touches of one
`(testId, studentId)` pair — sequential or concurrent — the store never
holds more than one `ExamAttempt` for the pair; as soon as any touch has
completed (or has observed the record), exactly one is stored; exactly
the creating request's record is stored; and a touch that observed or
updated the record did not create a second one. -/
theorem attempt_registry_unique (n : Nat) (s : RegistryState n)
    (h : RegistryReachable s) :
    s.stored.length ≤ 1 ∧
    (∀ i, s.phase i = .doneCreated ↔ i ∈ s.stored) ∧
    (∀ i, s.phase i = .doneCreated ∨ s.phase i = .doneUpdated ∨
        s.phase i = .doneConflict ∨ s.phase i = .found → s.stored.length = 1) ∧
    (∀ i, s.phase i = .found ∨ s.phase i = .doneUpdated → i ∉ s.stored) := by
  have hinv : RegistryInv s := by
    induction h with
    | refl => exact registry_inv_init n
    | tail _ hbc ih => exact registry_inv_step ih hbc
  obtain ⟨h1, h2, h3⟩ := hinv
  refine ⟨h1, h2, ?_, ?_⟩
  · intro i hi
    have hne : s.stored ≠ [] := by
      rcases hi with hc | hu | hcf | hf
      · exact List.ne_nil_of_mem ((h2 i).mp hc)
      · exact h3 i (Or.inr (Or.inl hu))
      · exact h3 i (Or.inr (Or.inr hcf))
      · exact h3 i (Or.inl hf)
    have hpos : 0 < s.stored.length := List.length_pos.mpr hne
    omega
  · intro i hi hmem
    have hc := (h2 i).mpr hmem
    rcases hi with h | h <;> rw [h] at hc <;> exact absurd hc (by decide)

theorem attempt_registry_unique_witness :
    RegistryReachable
      (⟨[(0 : Fin 2)],
        Function.update (Function.update (Function.update (Function.update
          (fun _ => TouchPhase.idle) (0 : Fin 2) .notFound) (1 : Fin 2) .notFound)
          (0 : Fin 2) .doneCreated) (1 : Fin 2) .doneConflict⟩ : RegistryState 2) ∧
    ([(0 : Fin 2)] : List (Fin 2)).length ≤ 1 ∧
    ([(0 : Fin 2)] : List (Fin 2)).length = 1 := by
  have t1 : RegistryStep (registryInit 2)
      ⟨[], Function.update (fun _ => TouchPhase.idle) (0 : Fin 2) .notFound⟩ :=
    RegistryStep.findMiss (0 : Fin 2) rfl rfl
  have t2 : RegistryStep
      (⟨[], Function.update (fun _ => TouchPhase.idle) (0 : Fin 2) .notFound⟩ :
        RegistryState 2)
      ⟨[], Function.update (Function.update (fun _ => TouchPhase.idle) (0 : Fin 2)
        .notFound) (1 : Fin 2) .notFound⟩ :=
    RegistryStep.findMiss (1 : Fin 2) (by decide) rfl
  have t3 : RegistryStep
      (⟨[], Function.update (Function.update (fun _ => TouchPhase.idle) (0 : Fin 2)
        .notFound) (1 : Fin 2) .notFound⟩ : RegistryState 2)
      ⟨[(0 : Fin 2)], Function.update (Function.update (Function.update
        (fun _ => TouchPhase.idle) (0 : Fin 2) .notFound) (1 : Fin 2) .notFound)
        (0 : Fin 2) .doneCreated⟩ :=
    RegistryStep.insertOk (0 : Fin 2) (by decide) rfl
  have t4 : RegistryStep
      (⟨[(0 : Fin 2)], Function.update (Function.update (Function.update
        (fun _ => TouchPhase.idle) (0 : Fin 2) .notFound) (1 : Fin 2) .notFound)
        (0 : Fin 2) .doneCreated⟩ : RegistryState 2)
      ⟨[(0 : Fin 2)], Function.update (Function.update (Function.update
        (Function.update (fun _ => TouchPhase.idle) (0 : Fin 2) .notFound)
        (1 : Fin 2) .notFound) (0 : Fin 2) .doneCreated) (1 : Fin 2) .doneConflict⟩ :=
    RegistryStep.insertConflict (1 : Fin 2) (by decide) (by decide)
  have htrace : RegistryReachable
      (⟨[(0 : Fin 2)],
        Function.update (Function.update (Function.update (Function.update
          (fun _ => TouchPhase.idle) (0 : Fin 2) .notFound) (1 : Fin 2) .notFound)
          (0 : Fin 2) .doneCreated) (1 : Fin 2) .doneConflict⟩ : RegistryState 2) :=
    Relation.ReflTransGen.tail (Relation.ReflTransGen.tail
      (Relation.ReflTransGen.tail (Relation.ReflTransGen.tail
        Relation.ReflTransGen.refl t1) t2) t3) t4
  refine ⟨htrace, (attempt_registry_unique 2 _ htrace).1, ?_⟩
  exact (attempt_registry_unique 2 _ htrace).2.2.1 (1 : Fin 2)
    (Or.inr (Or.inr (Or.inl (by decide))))

end Pariksha
